import Mathlib

/-!
Shallow embedding of the toolchain-resolution and build-pipeline layer of the
repository (files `nmigen/_yosys.py` and `nmigen/vendor/gowin_gw1n.py`).

The embedding models:
* Python exceptions as an explicit error type `PyError` and fallible calls as
  `Except PyError _`;
* the two Yosys providers (`_BuiltinYosys`, `_SystemYosys`) abstractly, by the
  observable outcomes of their `available()` and `version()` calls (these
  depend on the external machine state: installed packages and binaries);
* the version-string regexes, the stdout sanitization regex, the
  `NMIGEN_USE_YOSYS` clause splitting and the resolution loop of `find_yosys`
  concretely, translated from the source;
* the Gowin platform's toolchain gate and its command-template list.
-/

/-- Python exceptions that the modelled code can raise.  `typeError` models the
`TypeError` raised by subscripting `None` (`match[1]` when `re.match` returned
`None`); `assertionError` models a failed `assert`; `yosysError` models the
`YosysError` class of `nmigen/_yosys.py`, carrying its message. -/
inductive PyError
  | typeError
  | assertionError
  | yosysError (msg : String)
deriving DecidableEq

/-- A Yosys version, as returned by `YosysBinary.version`: (major, minor,
distance). -/
abbrev Version := Nat × Nat × Nat

/-- `leadsWith p s` is true when the list `p` is an initial segment of `s`
(used to model anchored regex fragments and Python string operations). -/
def leadsWith : List Char → List Char → Bool
  | [], _ => true
  | _ :: _, [] => false
  | p :: ps, c :: cs => p = c && leadsWith ps cs

/-- `hasSubstr hay needle` models Python's `needle in hay` for strings:
contiguous-substring containment. -/
def hasSubstr (hay needle : List Char) : Bool :=
  match hay with
  | [] => leadsWith needle []
  | _ :: t => leadsWith needle hay || hasSubstr t needle

/-- Maximal digit prefix of a character list together with the rest: the
semantics of a greedy `\d+` followed by a non-digit (or end). -/
def takeDigits (cs : List Char) : List Char × List Char :=
  match cs with
  | [] => ([], [])
  | c :: rest =>
    if c.isDigit then ((c :: (takeDigits rest).1), (takeDigits rest).2)
    else ([], c :: rest)

/-- Numeric value of a digit string, as computed by Python's `int`. -/
def digitsToNat (ds : List Char) : Nat :=
  ds.foldl (fun n c => 10 * n + (c.toNat - 48)) 0

/-- Common tail of the two version regexes:
`(\d+)\.(\d+)(?:PRE(\d+))?` anchored at the start, where `PRE` is the
provider-specific distance prefix (`\.post` for the builtin provider, `\+` for
the system provider).  Returns `none` when the regex does not match (Python's
`re.match` returning `None`), and otherwise the triple
`(int(match[1]), int(match[2]), int(match[3] or 0))`. -/
def matchVerTail (pre : List Char) (cs : List Char) : Option Version :=
  if (takeDigits cs).1 = [] then none
  else
    match (takeDigits cs).2 with
    | '.' :: r2 =>
      if (takeDigits r2).1 = [] then none
      else
        some (digitsToNat (takeDigits cs).1, digitsToNat (takeDigits r2).1,
          if leadsWith pre (takeDigits r2).2 then
            if (takeDigits ((takeDigits r2).2.drop pre.length)).1 = [] then 0
            else digitsToNat (takeDigits ((takeDigits r2).2.drop pre.length)).1
          else 0)
    | _ => none

/-- The builtin provider's version regex
`^(\d+)\.(\d+)(?:\.post(\d+))?` applied to a version string. -/
def matchBuiltinVersion (cs : List Char) : Option Version :=
  matchVerTail ['.', 'p', 'o', 's', 't'] cs

/-- The system provider's version regex
`^Yosys (\d+)\.(\d+)(?:\+(\d+))?` applied to a version string. -/
def matchSystemVersion (cs : List Char) : Option Version :=
  match cs with
  | 'Y' :: 'o' :: 's' :: 'y' :: 's' :: ' ' :: rest => matchVerTail ['+'] rest
  | _ => none

/-- `_BuiltinYosys.version`, given the version string reported by
`importlib_metadata.version("nmigen_yosys")`.  When the regex does not match,
`match[1]` subscripts `None` and raises `TypeError`. -/
def builtinYosys_version (s : String) : Except PyError Version :=
  match matchBuiltinVersion s.data with
  | none => .error .typeError
  | some v => .ok v

/-- `_SystemYosys.version`, given the (already sanitized) stdout of
`yosys -V`.  When the regex does not match, `match[1]` subscripts `None` and
raises `TypeError`. -/
def systemYosys_version (s : String) : Except PyError Version :=
  match matchSystemVersion s.data with
  | none => .error .typeError
  | some v => .ok v

/-! ## Stdout sanitization (`_SystemYosys.run`)

`_SystemYosys.run` post-processes captured stdout with
`re.sub(r"\A(-- .+\n|\n)*", "", stdout)`: it deletes the maximal leading run
of lines that are either empty (`\n`) or a Verific banner line
(`-- ` followed by at least one non-newline character, up to and including
the next newline).  `_BuiltinYosys.run` returns stdout unchanged. -/

/-- The characters after the first newline of the list, or `none` when the
list has no newline: the `.+\n` part of the banner regex (`.` cannot cross a
newline, so the match always ends at the first newline). -/
def afterNewline : List Char → Option (List Char)
  | [] => none
  | c :: r => if c = '\n' then some r else afterNewline r

/-- One step of the banner regex `(-- .+\n|\n)`: if the list starts with a
strippable line, return everything after that line, otherwise `none`.
`-- ` must be followed by at least one non-newline character for the first
alternative to match. -/
def stripBanner1 : List Char → Option (List Char)
  | '\n' :: r => some r
  | '-' :: '-' :: ' ' :: c :: r => if c = '\n' then none else afterNewline r
  | _ => none

theorem afterNewline_shrink : ∀ {l r : List Char}, afterNewline l = some r → r.length < l.length := by
  intro l
  induction l with
  | nil => intro r h; simp [afterNewline] at h
  | cons c t ih =>
    intro r h
    simp only [afterNewline] at h
    split at h
    · cases h; simp
    · exact Nat.lt_trans (ih h) (by simp)

theorem stripBanner1_shrink {cs r : List Char} (h : stripBanner1 cs = some r) :
    r.length < cs.length := by
  unfold stripBanner1 at h
  split at h
  · cases h; simp
  · split at h
    · cases h
    · have := afterNewline_shrink h
      simp only [List.length_cons]
      omega
  · cases h

/-- The sanitization `re.sub(r"\A(-- .+\n|\n)*", "", stdout)`: repeatedly
strip a leading banner line until none is left (the Kleene star is greedy and
each alternative's match is determined, so the regex removes exactly the
maximal run of strippable lines). -/
def sanitize (cs : List Char) : List Char :=
  match h : stripBanner1 cs with
  | some r => sanitize r
  | none => cs
termination_by cs.length
decreasing_by exact stripBanner1_shrink h

theorem sanitize_of_none {cs : List Char} (h : stripBanner1 cs = none) :
    sanitize cs = cs := by
  rw [sanitize, h]

theorem sanitize_of_some {cs r : List Char} (h : stripBanner1 cs = some r) :
    sanitize cs = sanitize r := by
  rw [sanitize, h]

theorem sanitize_step {cs r d : List Char} (h : stripBanner1 cs = some r)
    (h2 : sanitize r = d) : sanitize cs = d := by
  rw [sanitize_of_some h, h2]

/-- Whitespace characters stripped by Python's `str.strip()`. -/
def pyIsSpace (c : Char) : Bool :=
  c = ' ' || c = '\t' || c = '\n' || c = '\r' || c = '\x0b' || c = '\x0c'

/-- Python's `str.strip()`: remove leading and trailing whitespace. -/
def pyStrip (s : String) : String :=
  String.mk (((s.data.dropWhile pyIsSpace).reverse.dropWhile pyIsSpace).reverse)

/-- `_BuiltinYosys.run`, modelled on the observable outcome of the spawned
subprocess (its return code, stdout and stderr): non-zero return code raises
`YosysError` with the stripped stderr, otherwise stdout is returned
unchanged (no sanitization). -/
def builtinYosys_run (returncode : Int) (stdout stderr : String) :
    Except PyError String :=
  if returncode ≠ 0 then .error (.yosysError (pyStrip stderr))
  else .ok stdout

/-- `_SystemYosys.run`, modelled on the observable outcome of the spawned
subprocess: stdout is sanitized first, then a non-zero return code raises
`YosysError` with the stripped stderr, otherwise the sanitized stdout is
returned. -/
def systemYosys_run (returncode : Int) (stdout stderr : String) :
    Except PyError String :=
  let out := String.mk (sanitize stdout.data)
  if returncode ≠ 0 then .error (.yosysError (pyStrip stderr))
  else .ok out

/-- A character list made of zero or more strippable banner lines: each line
is either empty or `-- ` followed by at least one character, none of which is
a newline, up to a closing newline. -/
inductive Banner : List Char → Prop
  | nil : Banner []
  | blank (rest : List Char) : Banner rest → Banner ('\n' :: rest)
  | marker (body rest : List Char) (hne : body ≠ []) (hnl : '\n' ∉ body)
      (h : Banner rest) : Banner ('-' :: '-' :: ' ' :: (body ++ '\n' :: rest))

theorem afterNewline_append {l t : List Char} (h : '\n' ∉ l) :
    afterNewline (l ++ '\n' :: t) = some t := by
  induction l with
  | nil => simp [afterNewline]
  | cons c r ih =>
    simp only [List.mem_cons, not_or] at h
    have hc : ¬ c = '\n' := fun e => h.1 e.symm
    simp [afterNewline, hc, ih h.2]

theorem sanitize_banner_append {b c : List Char} (hb : Banner b)
    (hc : stripBanner1 c = none) : sanitize (b ++ c) = c := by
  induction hb with
  | nil => simpa using sanitize_of_none hc
  | blank rest _ ih =>
    rw [List.cons_append, @sanitize_of_some ('\n' :: (rest ++ c)) (rest ++ c) rfl]
    exact ih
  | marker body rest hne hnl _ ih =>
    match body, hne with
    | c0 :: body1, _ =>
      simp only [List.mem_cons, not_or] at hnl
      have harr : stripBanner1 ('-' :: '-' :: ' ' :: (c0 :: body1 ++ '\n' :: rest) ++ c)
          = some (rest ++ c) := by
        simp only [List.cons_append, List.append_assoc, stripBanner1]
        rw [if_neg (by simpa using fun hh => hnl.1 hh.symm)]
        exact afterNewline_append hnl.2
      rw [sanitize_of_some harr]
      exact ih

theorem stripBanner1_sanitize (cs : List Char) : stripBanner1 (sanitize cs) = none := by
  induction cs using sanitize.induct with
  | case1 cs r h ih => rwa [sanitize_of_some h]
  | case2 cs h => rwa [sanitize_of_none h]

theorem sanitize_idem (cs : List Char) : sanitize (sanitize cs) = sanitize cs :=
  sanitize_of_none (stripBanner1_sanitize cs)

/-! ## Toolchain resolution (`find_yosys`)

`find_yosys(requirement)` reads `NMIGEN_USE_YOSYS` (default
`"system,builtin"`), splits it on `","`, maps each clause to a provider class
(raising `YosysError` on an unrecognized clause), and then scans the provider
list for the first one with `proxy.available() and requirement(proxy.version())`.
The loop performs no exception handling, so an error raised by `version()`
propagates.  The environment (which providers are installed, and what their
`available()`/`version()` calls observably return) is modelled by `World`. -/

/-- The two provider classes that a clause can select. -/
inductive ProxyKind
  | system
  | builtin
deriving DecidableEq

/-- Observable checks performed on a provider during resolution. -/
inductive Event
  | availCheck (p : ProxyKind)
  | versionCheck (p : ProxyKind)
deriving DecidableEq

/-- The observable behavior of one provider class in the ambient machine
state: what `available()` returns, and what `version()` returns or raises. -/
structure Behavior where
  avail : Bool
  ver : Except PyError Version

/-- The ambient machine state: the behavior of each provider class. -/
structure World where
  system : Behavior
  builtin : Behavior

def World.behav (w : World) : ProxyKind → Behavior
  | .system => w.system
  | .builtin => w.builtin

/-- Python's `str.split(",")`: split on every comma, keeping empty pieces
(`"".split(",") == [""]`). -/
def pySplitComma : List Char → List (List Char)
  | [] => [[]]
  | c :: r =>
    if c = ',' then [] :: pySplitComma r
    else
      match pySplitComma r with
      | h :: t => (c :: h) :: t
      | [] => [[c]]

/-- Python's `repr` of a string without quotes or backslashes in it:
the string wrapped in single quotes (`"{!r}".format(clause)`). -/
def pyRepr (c : List Char) : List Char := '\x27' :: (c ++ ['\x27'])

/-- The message of the `YosysError` raised for an unrecognized
`NMIGEN_USE_YOSYS` clause. -/
def unrecognizedClauseMsg (c : List Char) : String :=
  "The NMIGEN_USE_YOSYS environment variable contains an unrecognized clause "
    ++ String.mk (pyRepr c)

/-- The fixed part of the failure message used when `NMIGEN_USE_YOSYS` is set:
the tried clauses are appended, comma-joined. -/
def searchedMsgPre : String :=
  "Could not find an acceptable Yosys binary. Searched: "

/-- The failure message used when `NMIGEN_USE_YOSYS` is not set. -/
def fallbackMsg : String :=
  "Could not find an acceptable Yosys binary. The `nmigen_yosys` PyPI "
    ++ "package, if available for this platform, can be used as fallback"

/-- The `YosysError` raised when no candidate was accepted, depending on
whether `NMIGEN_USE_YOSYS` is present in the environment. -/
def noAcceptableError (env : Option String) (clauses : List (List Char)) : PyError :=
  match env with
  | some _ =>
    .yosysError (searchedMsgPre ++ String.mk (List.intercalate [',', ' '] clauses))
  | none => .yosysError fallbackMsg

/-- Mapping of one clause to a provider class
(`if clause == "builtin" ... elif clause == "system" ... else raise`). -/
def parseClause (c : List Char) : Except PyError ProxyKind :=
  if c = "builtin".data then .ok .builtin
  else if c = "system".data then .ok .system
  else .error (.yosysError (unrecognizedClauseMsg c))

/-- The clause loop of `find_yosys`: builds the proxy list, raising at the
first unrecognized clause. -/
def parseProxies : List (List Char) → Except PyError (List ProxyKind)
  | [] => .ok []
  | c :: rest =>
    match parseClause c with
    | .error e => .error e
    | .ok p =>
      match parseProxies rest with
      | .error e => .error e
      | .ok ps => .ok (p :: ps)

/-- The proxy loop of `find_yosys`
(`for proxy in proxies: if proxy.available() and requirement(proxy.version()):
return proxy` / `else: raise ...`), instrumented with the list of
availability/version checks it performs.  `available()` is always checked
first; `version()` is only called when `available()` returned true
(short-circuit `and`); an error raised by `version()` propagates immediately;
when the list is exhausted the prepared `failErr` is raised. -/
def resolveLoop (w : World) (req : Version → Bool) (failErr : PyError) :
    List ProxyKind → List Event × Except PyError ProxyKind
  | [] => ([], .error failErr)
  | p :: rest =>
    if (w.behav p).avail then
      match (w.behav p).ver with
      | .error e => ([.availCheck p, .versionCheck p], .error e)
      | .ok v =>
        if req v then ([.availCheck p, .versionCheck p], .ok p)
        else
          ((.availCheck p) :: (.versionCheck p) :: (resolveLoop w req failErr rest).1,
            (resolveLoop w req failErr rest).2)
    else
      ((.availCheck p) :: (resolveLoop w req failErr rest).1,
        (resolveLoop w req failErr rest).2)

/-- `find_yosys(requirement)`, with the environment made explicit:
`env` is the value of `NMIGEN_USE_YOSYS` (`none` when unset), `w` the ambient
provider behavior, `req` the version predicate.  Returns the performed checks
and either the selected provider class or the raised exception. -/
def find_yosys (env : Option String) (w : World) (req : Version → Bool) :
    List Event × Except PyError ProxyKind :=
  let clauses := pySplitComma (env.getD "system,builtin").data
  match parseProxies clauses with
  | .error e => ([], .error e)
  | .ok proxies => resolveLoop w req (noAcceptableError env clauses) proxies

/-- A provider the loop passes over without returning or raising: either it is
unavailable, or its version is queried successfully but rejected. -/
def skips (w : World) (req : Version → Bool) (q : ProxyKind) : Prop :=
  (w.behav q).avail = false ∨ ∃ v, (w.behav q).ver = .ok v ∧ req v = false

/-- A provider the loop accepts: available, and its version is queried
successfully and accepted. -/
def hits (w : World) (req : Version → Bool) (p : ProxyKind) : Prop :=
  (w.behav p).avail = true ∧ ∃ v, (w.behav p).ver = .ok v ∧ req v = true

/-! ## The Gowin platform (`nmigen/vendor/gowin_gw1n.py`)

`GowinGW1NPlatform.__init__` runs `assert toolchain in ("Gowin")`.  The
parenthesized expression is the plain string `"Gowin"`, not a tuple, so the
Python `in` operator tests contiguous-substring containment.  The accessor
properties then compare `self.toolchain == "Gowin"` and fall through to
`assert False` otherwise. -/

/-- `GowinGW1NPlatform._gowin_required_tools`. -/
def _gowin_required_tools : List String :=
  ["GowinSynthesis", "gw_sh", "yosys"]

/-- `GowinGW1NPlatform._gowin_file_templates`: the dict merges
`TemplatedPlatform.build_script_templates` (defined outside the modelled
sources, here the parameter `base`) with the platform-specific template
entries, keyed by output-file name pattern.  None of the literal keys occurs
in `base`, so the merge is modelled as an append. -/
def _gowin_file_templates (base : List (String × String)) :
    List (String × String) :=
  base ++ [
    ("\x7b\x7bname\x7d\x7d.il",
      "\n            # \x7b\x7bautogenerated\x7d\x7d\n            \x7b\x7bemit_rtlil()\x7d\x7d\n        "),
    ("\x7b\x7bname\x7d\x7d.debug.v",
      "\n            /* \x7b\x7bautogenerated\x7d\x7d */\n            \x7b\x7bemit_debug_verilog()\x7d\x7d\n        "),
    ("\x7b\x7bname\x7d\x7d.ys",
      "\n            # \x7b\x7bautogenerated\x7d\x7d\n            \x7b% for file in platform.iter_files(\".v\") -%\x7d\n                read_verilog \x7b\x7bget_override(\"read_verilog_opts\")|options\x7d\x7d \x7b\x7bfile\x7d\x7d\n            \x7b% endfor %\x7d\n            \x7b% for file in platform.iter_files(\".sv\") -%\x7d\n                read_verilog -sv \x7b\x7bget_override(\"read_verilog_opts\")|options\x7d\x7d \x7b\x7bfile\x7d\x7d\n            \x7b% endfor %\x7d\n            \x7b% for file in platform.iter_files(\".il\") -%\x7d\n                read_ilang \x7b\x7bfile\x7d\x7d\n            \x7b% endfor %\x7d\n            read_ilang \x7b\x7bname\x7d\x7d.il\n            \x7b\x7bget_override(\"script_after_read\")|default(\"# (script_after_read placeholder)\")\x7d\x7d\n            synth_gowin \x7b\x7bget_override(\"synth_opts\")|options\x7d\x7d -top \x7b\x7bname\x7d\x7d -vout \x7b\x7bname\x7d\x7d_raw.vg\n\n            # Workaround for PnR tool bug: IOBUF and TBUF require ports to be passed directly, not via wires.\n            opt_clean -purge\n            write_verilog -decimal -attr2comment -defparam -renameprefix gen \x7b\x7bname\x7d\x7d.vg\n\n            \x7b\x7bget_override(\"script_after_synth\")|default(\"# (script_after_synth placeholder)\")\x7d\x7d\n        "),
    ("\x7b\x7bname\x7d\x7d.cst",
      "\n            # \x7b\x7bautogenerated\x7d\x7d\n            \x7b% for port_name, pin_name, attrs in platform.iter_port_constraints_bits() -%\x7d\n                IO_LOC \"\x7b\x7bport_name\x7d\x7d\" \x7b\x7bpin_name\x7d\x7d;\n            \x7b% endfor %\x7d\n            \x7b% for port_name, pin_name, attrs in platform.iter_port_constraints_bits() -%\x7d\n                IO_PORT \"\x7b\x7bport_name\x7d\x7d\" IO_TYPE=LVCMOS33;\n            \x7b% endfor %\x7d\n        "),
    ("\x7b\x7bname\x7d\x7d.sdc",
      "\n            \x7b% for net_signal, port_signal, frequency in platform.iter_clock_constraints() -%\x7d\n                create_clock -name \x7b\x7bnet_signal|hierarchy(\".\")\x7d\x7d -period \x7b\x7b1000000000/frequency\x7d\x7d -waveform \x7b0 \x7b\x7b500000000/frequency\x7d\x7d\x7d [get_ports \x7b \x7b\x7bport_signal.name\x7d\x7d \x7d]\n            \x7b% endfor%\x7d\n\n        "),
    ("run.tcl",
      "\n            add_file -type cst \x7b\x7bname\x7d\x7d.cst\n            add_file -type sdc \x7b\x7bname\x7d\x7d.sdc\n            add_file -type netlist \x7b\x7bname\x7d\x7d.vg\n            set_device -name \x7b\x7bplatform.device\x7d\x7d \x7b\x7bplatform.family\x7d\x7d-\x7b\x7bplatform.voltage\x7d\x7d\x7b\x7bplatform._device_suffix\x7d\x7d\x7b\x7bplatform.package\x7d\x7d\x7b\x7bplatform.speed\x7d\x7d\n            set_option -gen_posp 1\n            set_option -show_all_warn 1\n\n            # TODO: The following gpios may be a bit dangerous to enable, depending on the board used.\n\n            #set_option -use_jtag_as_gpio 1\n            set_option -use_sspi_as_gpio 1\n            set_option -use_mspi_as_gpio 1\n            #set_option -use_ready_as_gpio 1\n            #set_option -use_done_as_gpio 1\n            #set_option -use_reconfign_as_gpio 1\n            #set_option -use_mode_as_gpio 1\n\n            run pnr\n        ")
  ]

/-- `GowinGW1NPlatform._gowin_command_templates`: the ordered command
pipeline.  A `GowinSynthesis` invocation is commented out in the source; the
live steps are the yosys synthesis invocation, the `gw_sh` place-and-route
invocation, and last the relocation step copying the nested `.fs` bitstream to the
build root. -/
def _gowin_command_templates : List String :=
  [
    "\n        \x7b\x7binvoke_tool(\"yosys\")\x7d\x7d\n            \x7b\x7bquiet(\"-q\")\x7d\x7d\n            \x7b\x7bget_override(\"yosys_opts\")|options\x7d\x7d\n            -l \x7b\x7bname\x7d\x7d.rpt\n            \x7b\x7bname\x7d\x7d.ys\n        ",
    "\n        \x7b\x7binvoke_tool(\"gw_sh\")\x7d\x7d\n            run.tcl\n        ",
    "\n        \x7b\x7binvoke_tool(\"bash\")\x7d\x7d\n            -c \"\n                cp -f impl/pnr/\x7b\x7bname\x7d\x7d.fs ./\n            \"\n        "
  ]

/-- `GowinGW1NPlatform.__init__(toolchain=...)`: the assertion
`assert toolchain in ("Gowin")` (substring containment in the string
`"Gowin"`), then `self.toolchain = toolchain`.  Returns the stored toolchain
value, or the `AssertionError`. -/
def GowinGW1NPlatform_init (toolchain : String) : Except PyError String :=
  if hasSubstr "Gowin".data toolchain.data then .ok toolchain
  else .error .assertionError

/-- `GowinGW1NPlatform.required_tools`, as a function of the stored
`self.toolchain`. -/
def GowinGW1NPlatform_required_tools (toolchain : String) :
    Except PyError (List String) :=
  if toolchain = "Gowin" then .ok _gowin_required_tools
  else .error .assertionError

/-- `GowinGW1NPlatform.file_templates`, as a function of the stored
`self.toolchain` (with the inherited `build_script_templates` as `base`). -/
def GowinGW1NPlatform_file_templates (base : List (String × String))
    (toolchain : String) : Except PyError (List (String × String)) :=
  if toolchain = "Gowin" then .ok (_gowin_file_templates base)
  else .error .assertionError

/-- `GowinGW1NPlatform.command_templates`, as a function of the stored
`self.toolchain`. -/
def GowinGW1NPlatform_command_templates (toolchain : String) :
    Except PyError (List String) :=
  if toolchain = "Gowin" then .ok _gowin_command_templates
  else .error .assertionError

/-- `true` exactly on `Except.ok` results. -/
def pyOk {α : Type} : Except PyError α → Bool
  | .ok _ => true
  | .error _ => false

/-! ## Resolution-loop lemmas -/

/-- Checks recorded for a provider the loop passes over: the availability
check, plus the version check when the provider was available. -/
def skipEvents (w : World) (q : ProxyKind) : List Event :=
  if (w.behav q).avail then [.availCheck q, .versionCheck q] else [.availCheck q]

theorem resolveLoop_cons_skip {w : World} {req : Version → Bool} {e : PyError}
    {q : ProxyKind} {l : List ProxyKind} (h : skips w req q) :
    resolveLoop w req e (q :: l) =
      (skipEvents w q ++ (resolveLoop w req e l).1, (resolveLoop w req e l).2) := by
  rcases h with h | ⟨v, hv, hr⟩
  · simp [resolveLoop, skipEvents, h]
  · cases ha : (w.behav q).avail
    · simp [resolveLoop, skipEvents, ha]
    · simp [resolveLoop, skipEvents, ha, hv, hr]

theorem resolveLoop_hit {w : World} {req : Version → Bool} {e : PyError}
    {p : ProxyKind} {l : List ProxyKind} (h : hits w req p) :
    resolveLoop w req e (p :: l) = ([.availCheck p, .versionCheck p], .ok p) := by
  obtain ⟨ha, v, hv, hr⟩ := h
  simp [resolveLoop, ha, hv, hr]

theorem resolveLoop_raise {w : World} {req : Version → Bool} {e ex : PyError}
    {p : ProxyKind} {l : List ProxyKind} (ha : (w.behav p).avail = true)
    (hv : (w.behav p).ver = .error ex) :
    resolveLoop w req e (p :: l) = ([.availCheck p, .versionCheck p], .error ex) := by
  simp [resolveLoop, ha, hv]

theorem resolveLoop_skip_to {w : World} {req : Version → Bool} {e : PyError}
    {l₁ : List ProxyKind} (l : List ProxyKind) (h : ∀ q ∈ l₁, skips w req q) :
    (resolveLoop w req e (l₁ ++ l)).2 = (resolveLoop w req e l).2 := by
  induction l₁ with
  | nil => rfl
  | cons q t ih =>
    rw [List.cons_append, resolveLoop_cons_skip (h q (by simp))]
    exact ih fun x hx => h x (by simp [hx])

theorem resolveLoop_first_hit {w : World} {req : Version → Bool} {e : PyError}
    {l₁ : List ProxyKind} {p : ProxyKind} (l₂ : List ProxyKind)
    (h : ∀ q ∈ l₁, skips w req q) (hp : hits w req p) :
    resolveLoop w req e (l₁ ++ p :: l₂) = resolveLoop w req e (l₁ ++ [p]) := by
  induction l₁ with
  | nil => rw [List.nil_append, List.nil_append, resolveLoop_hit hp, resolveLoop_hit hp]
  | cons q t ih =>
    rw [List.cons_append, List.cons_append,
      resolveLoop_cons_skip (h q (by simp)), resolveLoop_cons_skip (h q (by simp)),
      ih fun x hx => h x (by simp [hx])]

theorem resolveLoop_all_skip {w : World} {req : Version → Bool} {e : PyError}
    {l : List ProxyKind} (h : ∀ q ∈ l, skips w req q) :
    (resolveLoop w req e l).2 = .error e := by
  induction l with
  | nil => rfl
  | cons q t ih =>
    rw [resolveLoop_cons_skip (h q (by simp))]
    exact ih fun x hx => h x (by simp [hx])

/-! ## Version-parsing lemmas -/

/-- A nonempty string of decimal digits: the language of `\d+`. -/
def digitStr (ds : List Char) : Prop :=
  ds ≠ [] ∧ ∀ c ∈ ds, c.isDigit = true

/-- The first character, if any, is not a digit (so a greedy `\d+` match ends
exactly here). -/
def headNotDigit : List Char → Prop
  | [] => True
  | c :: _ => c.isDigit = false

theorem takeDigits_append {ds r : List Char} (hd : ∀ c ∈ ds, c.isDigit = true)
    (hr : headNotDigit r) : takeDigits (ds ++ r) = (ds, r) := by
  induction ds with
  | nil =>
    cases r with
    | nil => rfl
    | cons c t => simp [takeDigits, headNotDigit] at hr ⊢; simp [hr]
  | cons d t ih =>
    have hd1 := hd d (by simp)
    have ht := ih fun c hc => hd c (by simp [hc])
    simp [takeDigits, hd1, ht]

theorem takeDigits_all {ds : List Char} (hd : ∀ c ∈ ds, c.isDigit = true) :
    takeDigits ds = (ds, []) := by
  have := takeDigits_append hd (r := ([] : List Char)) trivial
  simpa using this

theorem leadsWith_append_self (p r : List Char) : leadsWith p (p ++ r) = true := by
  induction p with
  | nil => rfl
  | cons c t ih => simp [leadsWith, ih]

/-- `matchVerTail` on a well-formed version string with an explicit distance
component. -/
theorem matchVerTail_dist {pre ds1 ds2 ds3 : List Char}
    (h1 : digitStr ds1) (h2 : digitStr ds2) (h3 : digitStr ds3)
    (hp : headNotDigit (pre ++ ds3)) :
    matchVerTail pre (ds1 ++ '.' :: (ds2 ++ (pre ++ ds3)))
      = some (digitsToNat ds1, digitsToNat ds2, digitsToNat ds3) := by
  have t1 : takeDigits (ds1 ++ '.' :: (ds2 ++ (pre ++ ds3)))
      = (ds1, '.' :: (ds2 ++ (pre ++ ds3))) :=
    takeDigits_append h1.2 (by exact rfl)
  have t2 : takeDigits (ds2 ++ (pre ++ ds3)) = (ds2, pre ++ ds3) :=
    takeDigits_append h2.2 hp
  have t3 : takeDigits ds3 = (ds3, []) := takeDigits_all h3.2
  simp [matchVerTail, t1, t2, t3, h1.1, h2.1, h3.1, leadsWith_append_self,
    List.drop_left]

/-- `matchVerTail` on a well-formed version string without a distance
component. -/
theorem matchVerTail_nodist {pre ds1 ds2 : List Char}
    (h1 : digitStr ds1) (h2 : digitStr ds2) (hpre : pre ≠ []) :
    matchVerTail pre (ds1 ++ '.' :: ds2)
      = some (digitsToNat ds1, digitsToNat ds2, 0) := by
  have t1 : takeDigits (ds1 ++ '.' :: ds2) = (ds1, '.' :: ds2) :=
    takeDigits_append h1.2 (by exact rfl)
  have t2 : takeDigits ds2 = (ds2, []) := takeDigits_all h2.2
  match pre, hpre with
  | c :: t, _ => simp [matchVerTail, t1, t2, h1.1, h2.1, leadsWith]

/-- Discriminator for the `YosysError` class: true exactly on `yosysError`. -/
def PyError.isYosysError : PyError → Bool
  | .yosysError _ => true
  | _ => false

theorem builtinYosys_version_of_match {l : List Char} {v : Version}
    (h : matchBuiltinVersion l = some v) :
    builtinYosys_version (String.mk l) = .ok v := by
  unfold builtinYosys_version
  have hd : (String.mk l).data = l := rfl
  rw [hd, h]

theorem systemYosys_version_of_match {l : List Char} {v : Version}
    (h : matchSystemVersion l = some v) :
    systemYosys_version (String.mk l) = .ok v := by
  unfold systemYosys_version
  have hd : (String.mk l).data = l := rfl
  rw [hd, h]

theorem matchSystemVersion_eq (rest : List Char) :
    matchSystemVersion ('Y' :: 'o' :: 's' :: 'y' :: 's' :: ' ' :: rest)
      = matchVerTail ['+'] rest := rfl

/-! ## The claims -/

/-- C5: for every well-formed version string, `version()` parsing returns
`(major, minor, distance)` when an explicit distance component is present
(`.post<n>` for the builtin provider, `+<n>` for the system provider) and
`(major, minor, 0)` when the distance component is absent. -/
theorem c5_version_parsing (ds1 ds2 ds3 : List Char)
    (h1 : digitStr ds1) (h2 : digitStr ds2) (h3 : digitStr ds3) :
    builtinYosys_version
        (String.mk (ds1 ++ '.' :: (ds2 ++ ('.' :: 'p' :: 'o' :: 's' :: 't' :: ds3))))
      = .ok (digitsToNat ds1, digitsToNat ds2, digitsToNat ds3)
    ∧ builtinYosys_version (String.mk (ds1 ++ '.' :: ds2))
      = .ok (digitsToNat ds1, digitsToNat ds2, 0)
    ∧ systemYosys_version
        (String.mk ('Y' :: 'o' :: 's' :: 'y' :: 's' :: ' ' :: (ds1 ++ '.' :: (ds2 ++ ('+' :: ds3)))))
      = .ok (digitsToNat ds1, digitsToNat ds2, digitsToNat ds3)
    ∧ systemYosys_version (String.mk ('Y' :: 'o' :: 's' :: 'y' :: 's' :: ' ' :: (ds1 ++ '.' :: ds2)))
      = .ok (digitsToNat ds1, digitsToNat ds2, 0) := by
  have hbd : matchVerTail ['.', 'p', 'o', 's', 't']
      (ds1 ++ '.' :: (ds2 ++ (['.', 'p', 'o', 's', 't'] ++ ds3)))
      = some (digitsToNat ds1, digitsToNat ds2, digitsToNat ds3) :=
    matchVerTail_dist h1 h2 h3 (by exact rfl)
  have hsd : matchVerTail ['+'] (ds1 ++ '.' :: (ds2 ++ (['+'] ++ ds3)))
      = some (digitsToNat ds1, digitsToNat ds2, digitsToNat ds3) :=
    matchVerTail_dist h1 h2 h3 (by exact rfl)
  refine ⟨?_, ?_, ?_, ?_⟩
  · exact builtinYosys_version_of_match hbd
  · exact builtinYosys_version_of_match (matchVerTail_nodist h1 h2 (by simp))
  · exact systemYosys_version_of_match
      ((matchSystemVersion_eq (ds1 ++ '.' :: (ds2 ++ ('+' :: ds3)))).trans hsd)
  · exact systemYosys_version_of_match
      ((matchSystemVersion_eq (ds1 ++ '.' :: ds2)).trans (matchVerTail_nodist h1 h2 (by simp)))

theorem c5_version_parsing_witness :
    digitStr ['2'] ∧ digitStr ['3'] ∧ digitStr ['5']
    ∧ builtinYosys_version "2.3.post5" = .ok (2, 3, 5)
    ∧ builtinYosys_version "2.3" = .ok (2, 3, 0)
    ∧ systemYosys_version "Yosys 2.3+5" = .ok (2, 3, 5)
    ∧ systemYosys_version "Yosys 2.3" = .ok (2, 3, 0) := by
  have h2 : digitStr ['2'] := ⟨by decide, by decide⟩
  have h3 : digitStr ['3'] := ⟨by decide, by decide⟩
  have h5 : digitStr ['5'] := ⟨by decide, by decide⟩
  have h := c5_version_parsing ['2'] ['3'] ['5'] h2 h3 h5
  exact ⟨h2, h3, h5, h.1, h.2.1, h.2.2.1, h.2.2.2⟩

/-- C6 (amended): applied to stdout made of zero or more strippable banner
lines (blank lines, or `-- ` followed by at least one non-newline character
and a closing newline) followed by remaining content that does not itself
begin with such a line, sanitization returns exactly the remaining content;
stdout with no leading strippable line is returned unchanged; sanitization is
idempotent; `_SystemYosys.run` returns the sanitized stdout on success while
`_BuiltinYosys.run` performs no stripping at all. -/
theorem c6_sanitization :
    (∀ b c, Banner b → stripBanner1 c = none → sanitize (b ++ c) = c)
    ∧ (∀ s, stripBanner1 s = none → sanitize s = s)
    ∧ (∀ s, sanitize (sanitize s) = sanitize s)
    ∧ (∀ out err : String, systemYosys_run 0 out err = .ok (String.mk (sanitize out.data)))
    ∧ (∀ out err : String, builtinYosys_run 0 out err = .ok out) :=
  ⟨fun _ _ hb hc => sanitize_banner_append hb hc,
   fun _ h => sanitize_of_none h,
   sanitize_idem,
   fun _ _ => rfl,
   fun _ _ => rfl⟩

theorem c6_sanitization_witness :
    Banner ('-' :: '-' :: ' ' :: 'x' :: '\n' :: '\n' :: [])
    ∧ stripBanner1 "hi".data = none
    ∧ sanitize (('-' :: '-' :: ' ' :: 'x' :: '\n' :: '\n' :: []) ++ "hi".data) = "hi".data := by
  have hb : Banner ('-' :: '-' :: ' ' :: 'x' :: '\n' :: '\n' :: []) :=
    Banner.marker ['x'] ['\n'] (by decide) (by decide) (Banner.blank [] Banner.nil)
  exact ⟨hb, rfl, c6_sanitization.1 _ _ hb rfl⟩

/-- C6 counterexample to the claim as stated: the line `-- \n` begins with
the marker prefix `-- ` but is not stripped (the regex needs at least one
character after the marker), and content that itself begins with a blank line
is not returned intact (the strip is maximal). -/
theorem c6_counterexample :
    sanitize ('-' :: '-' :: ' ' :: '\n' :: "hello".data)
      = '-' :: '-' :: ' ' :: '\n' :: "hello".data
    ∧ sanitize ('\n' :: "hello".data) = "hello".data :=
  ⟨sanitize_of_none rfl, sanitize_step rfl (sanitize_of_none rfl)⟩

/-- C8: in the Gowin platform's ordered command pipeline, the relocation step
(copying the nested `.fs` bitstream from the PnR output directory to the
build root via `cp -f`) is the last of the three steps, after the yosys
synthesis invocation (index 0) and the `gw_sh` place-and-route invocation
(index 1). -/
theorem c8_relocation_last :
    _gowin_command_templates.length = 3
    ∧ hasSubstr (_gowin_command_templates.getD 0 "").data "invoke_tool(\"yosys\")".data = true
    ∧ hasSubstr (_gowin_command_templates.getD 1 "").data "invoke_tool(\"gw_sh\")".data = true
    ∧ hasSubstr (_gowin_command_templates.getD 2 "").data "invoke_tool(\"bash\")".data = true
    ∧ hasSubstr (_gowin_command_templates.getD 2 "").data "cp -f impl/pnr/".data = true
    ∧ hasSubstr (_gowin_command_templates.getD 2 "").data ".fs ./".data = true
    ∧ _gowin_command_templates.getLast? = some (_gowin_command_templates.getD 2 "") :=
  ⟨rfl, rfl, rfl, rfl, rfl, rfl, rfl⟩

/-- C9: `GowinGW1NPlatform.__init__` accepts a toolchain argument exactly
when it is a contiguous substring of `"Gowin"` (the assertion tests string
containment, not tuple membership), so `"win"`, `"Gow"` and `""` pass; yet
for every accepted toolchain other than `"Gowin"` itself, the accessors
`required_tools`, `file_templates` and `command_templates` fail an
assertion. -/
theorem c9_toolchain_substring :
    (∀ t : String, pyOk (GowinGW1NPlatform_init t) = true ↔ hasSubstr "Gowin".data t.data = true)
    ∧ GowinGW1NPlatform_init "win" = .ok "win"
    ∧ GowinGW1NPlatform_init "Gow" = .ok "Gow"
    ∧ GowinGW1NPlatform_init "" = .ok ""
    ∧ GowinGW1NPlatform_init "Gowins" = .error .assertionError
    ∧ (∀ (t : String) (base : List (String × String)),
        pyOk (GowinGW1NPlatform_init t) = true → t ≠ "Gowin" →
        GowinGW1NPlatform_required_tools t = .error .assertionError
        ∧ GowinGW1NPlatform_file_templates base t = .error .assertionError
        ∧ GowinGW1NPlatform_command_templates t = .error .assertionError) := by
  refine ⟨fun t => ?_, rfl, rfl, rfl, rfl, fun t base hok hne => ?_⟩
  · cases h : hasSubstr "Gowin".data t.data
    · simp [GowinGW1NPlatform_init, pyOk, h]
    · simp [GowinGW1NPlatform_init, pyOk, h]
  · exact ⟨by simp [GowinGW1NPlatform_required_tools, hne],
      by simp [GowinGW1NPlatform_file_templates, hne],
      by simp [GowinGW1NPlatform_command_templates, hne]⟩

theorem c9_toolchain_substring_witness :
    pyOk (GowinGW1NPlatform_init "win") = true ∧ "win" ≠ "Gowin"
    ∧ GowinGW1NPlatform_required_tools "win" = .error .assertionError
    ∧ GowinGW1NPlatform_file_templates [] "win" = .error .assertionError
    ∧ GowinGW1NPlatform_command_templates "win" = .error .assertionError := by
  have h := c9_toolchain_substring.2.2.2.2.2 "win" [] rfl (by decide)
  exact ⟨rfl, by decide, h.1, h.2.1, h.2.2⟩

/-! ## Clause-splitting lemmas -/

theorem pySplitComma_ne_nil (cs : List Char) : pySplitComma cs ≠ [] := by
  induction cs with
  | nil => simp [pySplitComma]
  | cons c r ih =>
    by_cases h : c = ','
    · simp [pySplitComma, h]
    · simp only [pySplitComma, h, if_false]
      cases hs : pySplitComma r with
      | nil => simp
      | cons a t => simp

/-- A value containing `", "` splits into a clause list in which some clause
other than the first begins with a space. -/
theorem pySplitComma_space {cs : List Char} (h : hasSubstr cs [',', ' '] = true) :
    ∃ e ∈ (pySplitComma cs).drop 1, ∃ t, e = ' ' :: t := by
  induction cs with
  | nil => simp [hasSubstr, leadsWith] at h
  | cons c r ih =>
    rw [hasSubstr, Bool.or_eq_true] at h
    rcases h with h | h
    · rw [leadsWith, Bool.and_eq_true] at h
      obtain ⟨hc, hr⟩ := h
      have hc : c = ',' := by simpa [eq_comm] using hc
      subst hc
      cases r with
      | nil => simp [leadsWith] at hr
      | cons x xs =>
        rw [leadsWith, Bool.and_eq_true] at hr
        have hx : x = ' ' := by simpa [eq_comm] using hr.1
        subst hx
        have hne := pySplitComma_ne_nil xs
        cases hs : pySplitComma xs with
        | nil => exact absurd hs hne
        | cons a t =>
          refine ⟨' ' :: a, ?_, a, rfl⟩
          simp [pySplitComma, hs]
    · obtain ⟨e, he, t, ht⟩ := ih h
      by_cases hc : c = ','
      · refine ⟨e, ?_, t, ht⟩
        simp only [pySplitComma, hc, if_pos rfl, List.drop_one, List.tail_cons]
        exact List.mem_of_mem_drop he
      · have hne := pySplitComma_ne_nil r
        cases hs : pySplitComma r with
        | nil => exact absurd hs hne
        | cons a tl =>
          refine ⟨e, ?_, t, ht⟩
          simp only [pySplitComma, hc, if_false, hs]
          rw [hs] at he
          simpa using he

/-- If some clause is neither `"builtin"` nor `"system"`, the clause loop
raises an unrecognized-clause `YosysError`. -/
theorem parseProxies_bad {l : List (List Char)} {e : List Char}
    (he : e ∈ l) (h1 : e ≠ "builtin".data) (h2 : e ≠ "system".data) :
    ∃ c, parseProxies l = .error (.yosysError (unrecognizedClauseMsg c)) := by
  induction l with
  | nil => simp at he
  | cons a t ih =>
    by_cases hb : a = "builtin".data
    · rcases List.mem_cons.mp he with rfl | hmem
      · exact absurd hb h1
      · obtain ⟨c, hc⟩ := ih hmem
        exact ⟨c, by simp [parseProxies, parseClause, hb, hc]⟩
    · by_cases hsy : a = "system".data
      · rcases List.mem_cons.mp he with rfl | hmem
        · exact absurd hsy h2
        · obtain ⟨c, hc⟩ := ih hmem
          exact ⟨c, by simp [parseProxies, parseClause, hb, hsy, hc]⟩
      · exact ⟨a, by simp [parseProxies, parseClause, hb, hsy]⟩

/-- The provider behaviors of the end-to-end scenario: the system provider is
available with version (1, 9, 0), the builtin provider is available with
version (2, 3, 5). -/
def scenarioWorld : World :=
  ⟨⟨true, .ok (1, 9, 0)⟩, ⟨true, .ok (2, 3, 5)⟩⟩

/-- The version predicate of the end-to-end scenario: major version at least
2. -/
def scenarioReq : Version → Bool := fun v => decide (2 ≤ v.1)

/-- C1 (amended): when every candidate before `p` in the order is either
unavailable or has a successfully-queried rejected version, and `p` is
available with an accepted version, the loop returns `p` and performs exactly
the checks it would perform on the order truncated after `p` — no later
candidate is availability- or version-checked.  In the end-to-end scenario
(order system,builtin; accept major ≥ 2; system available at (1,9,0);
builtin available at (2,3,5)) resolution returns the builtin provider. -/
theorem c1_first_acceptable :
    (∀ (w : World) (req : Version → Bool) (e : PyError)
        (l₁ : List ProxyKind) (p : ProxyKind) (l₂ : List ProxyKind),
      (∀ q ∈ l₁, skips w req q) → hits w req p →
      resolveLoop w req e (l₁ ++ p :: l₂) = resolveLoop w req e (l₁ ++ [p])
      ∧ (resolveLoop w req e (l₁ ++ p :: l₂)).2 = .ok p)
    ∧ (find_yosys (some "system,builtin") scenarioWorld scenarioReq).2 = .ok .builtin := by
  refine ⟨fun w req e l₁ p l₂ hs hp => ⟨resolveLoop_first_hit l₂ hs hp, ?_⟩, rfl⟩
  rw [resolveLoop_skip_to (p :: l₂) hs, resolveLoop_hit hp]

theorem c1_first_acceptable_witness :
    (∀ q ∈ [ProxyKind.system], skips scenarioWorld scenarioReq q)
    ∧ hits scenarioWorld scenarioReq .builtin
    ∧ (resolveLoop scenarioWorld scenarioReq .typeError
        ([ProxyKind.system] ++ ProxyKind.builtin :: [ProxyKind.system])).2 = .ok .builtin := by
  have hs : ∀ q ∈ [ProxyKind.system], skips scenarioWorld scenarioReq q := by
    intro q hq
    rw [List.mem_singleton] at hq
    subst hq
    exact Or.inr ⟨(1, 9, 0), rfl, rfl⟩
  have hp : hits scenarioWorld scenarioReq .builtin := ⟨rfl, (2, 3, 5), rfl, rfl⟩
  exact ⟨hs, hp,
    (c1_first_acceptable.1 scenarioWorld scenarioReq .typeError
      [ProxyKind.system] .builtin [ProxyKind.system] hs hp).2⟩

/-- C1 counterexample to the claim as stated: with order system,builtin, the
builtin provider available and acceptable, but the system provider available
with a failing version query, `find_yosys` raises the version error instead
of returning the first available-and-acceptable provider (builtin). -/
theorem c1_counterexample :
    (find_yosys (some "system,builtin")
      ⟨⟨true, .error .typeError⟩, ⟨true, .ok (3, 0, 0)⟩⟩ (fun _ => true)).2
      = .error .typeError := rfl

/-- C2 (amended): when every candidate before `p` is passed over and `p` is
available but its version query raises, the error propagates out of the
resolution loop immediately — the search is aborted, later candidates are
not tried. -/
theorem c2_version_error_aborts :
    ∀ (w : World) (req : Version → Bool) (e ex : PyError)
      (l₁ : List ProxyKind) (p : ProxyKind) (l₂ : List ProxyKind),
      (∀ q ∈ l₁, skips w req q) → (w.behav p).avail = true →
      (w.behav p).ver = .error ex →
      (resolveLoop w req e (l₁ ++ p :: l₂)).2 = .error ex := by
  intro w req e ex l₁ p l₂ hs ha hv
  rw [resolveLoop_skip_to (p :: l₂) hs, resolveLoop_raise ha hv]

theorem c2_version_error_aborts_witness :
    ((⟨⟨true, .error .typeError⟩, ⟨true, .ok (9, 0, 0)⟩⟩ : World).behav .system).avail = true
    ∧ ((⟨⟨true, .error .typeError⟩, ⟨true, .ok (9, 0, 0)⟩⟩ : World).behav .system).ver
        = .error .typeError
    ∧ (resolveLoop (⟨⟨true, .error .typeError⟩, ⟨true, .ok (9, 0, 0)⟩⟩ : World)
        (fun _ => true) .assertionError
        ([] ++ ProxyKind.system :: [ProxyKind.builtin])).2 = .error .typeError :=
  ⟨rfl, rfl,
    c2_version_error_aborts _ _ _ _ [] .system [.builtin] (by simp) rfl rfl⟩

/-- C2 counterexample to the claim as stated: with the default order, the
system provider available but with a failing version query and the builtin
provider available and acceptable, `find_yosys` propagates the version error
instead of continuing with the next candidate. -/
theorem c2_counterexample :
    (find_yosys none ⟨⟨true, .error .typeError⟩, ⟨true, .ok (9, 0, 0)⟩⟩
      (fun _ => true)).2 = .error .typeError := rfl

/-- C3 (amended): for every version string the provider's version pattern
does not match, `version()` raises the `TypeError` produced by subscripting
the failed match — not a designated version-query error (no such error class
exists; the raised error is not a `YosysError`). -/
theorem c3_unparsable_version :
    (∀ s : String, matchBuiltinVersion s.data = none →
      builtinYosys_version s = .error .typeError)
    ∧ (∀ s : String, matchSystemVersion s.data = none →
      systemYosys_version s = .error .typeError)
    ∧ PyError.typeError.isYosysError = false := by
  refine ⟨fun s h => ?_, fun s h => ?_, rfl⟩
  · unfold builtinYosys_version
    rw [h]
  · unfold systemYosys_version
    rw [h]

theorem c3_unparsable_version_witness :
    matchBuiltinVersion "1.".data = none
    ∧ builtinYosys_version "1." = .error .typeError
    ∧ matchSystemVersion "Yosys 1".data = none
    ∧ systemYosys_version "Yosys 1" = .error .typeError :=
  ⟨rfl, c3_unparsable_version.1 "1." rfl, rfl, c3_unparsable_version.2.1 "Yosys 1" rfl⟩

/-- C3 counterexample to the claim as stated: on the unmatched version string
`"abc"`, both providers' `version()` raises `TypeError` — an unrelated
error, not a designated version-query error. -/
theorem c3_counterexample :
    builtinYosys_version "abc" = .error .typeError
    ∧ systemYosys_version "abc" = .error .typeError
    ∧ PyError.typeError.isYosysError = false := ⟨rfl, rfl, rfl⟩

/-- C4 (amended): when `NMIGEN_USE_YOSYS` is unset, `find_yosys` uses the
built-in default provider order system,builtin; but when it is set to the
empty string, `find_yosys` raises the unrecognized-clause error for the empty
clause instead of falling back to the default order. -/
theorem c4_env_default :
    (∀ (w : World) (req : Version → Bool),
      find_yosys none w req
        = resolveLoop w req (.yosysError fallbackMsg) [.system, .builtin])
    ∧ (∀ (w : World) (req : Version → Bool),
      find_yosys (some "") w req
        = ([], .error (.yosysError (unrecognizedClauseMsg [])))) :=
  ⟨fun _ _ => rfl, fun _ _ => rfl⟩

/-- C4 counterexample to the claim as stated: with `NMIGEN_USE_YOSYS` set to
the empty string, `find_yosys` fails with an unrecognized-clause error rather
than using the built-in default order. -/
theorem c4_counterexample :
    find_yosys (some "") ⟨⟨false, .error .typeError⟩, ⟨false, .error .typeError⟩⟩
      (fun _ => true)
      = ([], .error (.yosysError (unrecognizedClauseMsg []))) := rfl

/-- C7 (amended): when every candidate in the order is passed over
(unavailable, or version queried and rejected), `find_yosys` fails with a
`YosysError`; with `NMIGEN_USE_YOSYS` set, the message starts with the
`Searched:` prefix followed by the tried clauses joined in order, while with
it unset the message is the fixed fallback text suggesting the
`nmigen_yosys` package, which does not carry that listing prefix. -/
theorem c7_exhaustion_error :
    (∀ (s : String) (w : World) (req : Version → Bool) (ps : List ProxyKind),
      parseProxies (pySplitComma s.data) = .ok ps →
      (∀ q ∈ ps, skips w req q) →
      (find_yosys (some s) w req).2
        = .error (.yosysError (searchedMsgPre
            ++ String.mk (List.intercalate [',', ' '] (pySplitComma s.data)))))
    ∧ (∀ (w : World) (req : Version → Bool),
      skips w req .system → skips w req .builtin →
      (find_yosys none w req).2 = .error (.yosysError fallbackMsg))
    ∧ leadsWith searchedMsgPre.data fallbackMsg.data = false := by
  refine ⟨fun s w req ps hp hs => ?_, fun w req h1 h2 => ?_, rfl⟩
  · simp only [find_yosys, Option.getD_some, hp]
    exact resolveLoop_all_skip hs
  · have hu : find_yosys none w req
        = resolveLoop w req (.yosysError fallbackMsg) [.system, .builtin] := rfl
    rw [hu]
    refine resolveLoop_all_skip ?_
    intro q hq
    rw [List.mem_cons, List.mem_singleton] at hq
    rcases hq with rfl | rfl
    exacts [h1, h2]

theorem c7_exhaustion_error_witness :
    parseProxies (pySplitComma "system,builtin".data)
      = .ok [ProxyKind.system, ProxyKind.builtin]
    ∧ (∀ q ∈ [ProxyKind.system, ProxyKind.builtin],
        skips ⟨⟨false, .error .typeError⟩, ⟨false, .error .typeError⟩⟩ (fun _ => false) q)
    ∧ (find_yosys (some "system,builtin")
        ⟨⟨false, .error .typeError⟩, ⟨false, .error .typeError⟩⟩ (fun _ => false)).2
      = .error (.yosysError (searchedMsgPre
          ++ String.mk (List.intercalate [',', ' '] (pySplitComma "system,builtin".data)))) := by
  have hs : ∀ q ∈ [ProxyKind.system, ProxyKind.builtin],
      skips ⟨⟨false, .error .typeError⟩, ⟨false, .error .typeError⟩⟩ (fun _ => false) q := by
    intro q hq
    rw [List.mem_cons, List.mem_singleton] at hq
    rcases hq with rfl | rfl
    · exact Or.inl rfl
    · exact Or.inl rfl
  exact ⟨rfl, hs, c7_exhaustion_error.1 "system,builtin" _ _ _ rfl hs⟩

/-- C7 counterexample to the claim as stated: with `NMIGEN_USE_YOSYS` unset
and no acceptable candidate, the error message is the fixed fallback text,
which does not list the tried candidate names `system` and `builtin`. -/
theorem c7_counterexample :
    (find_yosys none ⟨⟨false, .error .typeError⟩, ⟨false, .error .typeError⟩⟩
      (fun _ => false)).2 = .error (.yosysError fallbackMsg)
    ∧ hasSubstr fallbackMsg.data "system".data = false
    ∧ hasSubstr fallbackMsg.data "builtin".data = false := ⟨rfl, rfl, rfl⟩

/-- C10 (amended): clause parsing does not trim whitespace — a clause is
accepted exactly when it is the literal `"builtin"` or `"system"`, and any
`NMIGEN_USE_YOSYS` value containing `", "` makes `find_yosys` raise an
unrecognized-clause error (for the first unrecognized clause; when all other
clauses are valid, as in `"system, builtin"`, that is the whitespace-prefixed
name) instead of resolving. -/
theorem c10_no_whitespace_trim :
    (∀ (w : World) (req : Version → Bool),
      find_yosys (some "system, builtin") w req
        = ([], .error (.yosysError (unrecognizedClauseMsg (' ' :: "builtin".data)))))
    ∧ (∀ c, pyOk (parseClause c) = true ↔ (c = "builtin".data ∨ c = "system".data))
    ∧ (∀ (s : String) (w : World) (req : Version → Bool),
        hasSubstr s.data [',', ' '] = true →
        ∃ c, find_yosys (some s) w req
          = ([], .error (.yosysError (unrecognizedClauseMsg c)))) := by
  refine ⟨fun w req => rfl, fun c => ?_, fun s w req h => ?_⟩
  · by_cases hb : c = "builtin".data
    · simp [parseClause, pyOk, hb]
    · by_cases hsy : c = "system".data
      · simp [parseClause, pyOk, hb, hsy]
      · simp [parseClause, pyOk, hb, hsy]
  · obtain ⟨e, he, t, ht⟩ := pySplitComma_space h
    have hmem : e ∈ pySplitComma s.data := List.mem_of_mem_drop he
    have h1 : e ≠ "builtin".data := by subst ht; intro hx; cases hx
    have h2 : e ≠ "system".data := by subst ht; intro hx; cases hx
    obtain ⟨c, hc⟩ := parseProxies_bad hmem h1 h2
    exact ⟨c, by simp only [find_yosys, Option.getD_some, hc]⟩

theorem c10_no_whitespace_trim_witness :
    hasSubstr ("system, builtin" : String).data [',', ' '] = true
    ∧ (∃ c, find_yosys (some "system, builtin")
        ⟨⟨true, .ok (1, 0, 0)⟩, ⟨true, .ok (1, 0, 0)⟩⟩ (fun _ => true)
        = ([], .error (.yosysError (unrecognizedClauseMsg c)))) :=
  ⟨rfl, c10_no_whitespace_trim.2.2 "system, builtin"
    ⟨⟨true, .ok (1, 0, 0)⟩, ⟨true, .ok (1, 0, 0)⟩⟩ (fun _ => true) rfl⟩

/-- C10 counterexample to the claim as stated: the value `"xx, builtin"`
contains a space after a comma, but the raised unrecognized-clause error
names the earlier bad clause `"xx"`, not the whitespace-prefixed name
`" builtin"`. -/
theorem c10_counterexample :
    find_yosys (some "xx, builtin")
      ⟨⟨false, .error .typeError⟩, ⟨false, .error .typeError⟩⟩ (fun _ => true)
      = ([], .error (.yosysError (unrecognizedClauseMsg "xx".data)))
    ∧ unrecognizedClauseMsg "xx".data ≠ unrecognizedClauseMsg (' ' :: "builtin".data) :=
  ⟨rfl, by decide⟩
